import Mathlib

/-!
Shallow embedding of the home-server-host repository's core logic:
the agent-facing HTTP function (register / heartbeat / disconnect /
pool lookup routes together with the pool-totals aggregator) and the
SQL visibility predicate `users_share_pool` from the migrations.

Database rows are modelled as Lean structures, the database as lists of
rows, and each HTTP handler as a pure function from a request and a
database state to a new state and a response.  Nullable SQL columns are
`Option` fields; the JavaScript `x || 0` coercions become `Option.getD 0`.
-/

namespace HomeServerHost

/-- Online/offline status stored on a pool-contributor row. -/
inductive Status where
  | online : Status
  | offline : Status
deriving DecidableEq, Repr

/-- A row of the `pool_contributors` table.  `cpu_cores`, `ram_gb`,
`storage_gb` and `last_seen` are nullable columns. -/
structure Contributor where
  id : Nat
  pool_id : Nat
  user_id : Nat
  cpu_cores : Option Int
  ram_gb : Option Int
  storage_gb : Option Int
  status : Status
  last_seen : Option Nat
deriving DecidableEq, Repr

/-- A row of the `pools` table (the fields the agent API touches). -/
structure Pool where
  id : Nat
  owner_id : Nat
  invite_code : String
  total_cpu_cores : Int
  total_ram_gb : Int
  total_storage_gb : Int
deriving DecidableEq, Repr

/-- A row of the `servers` table (the fields the visibility predicate reads). -/
structure Server where
  id : Nat
  owner_id : Nat
deriving DecidableEq, Repr

/-- A row of the `server_pool_assignments` table. -/
structure Assignment where
  server_id : Nat
  pool_id : Nat
deriving DecidableEq, Repr

/-- The database state: the relations the embedded code reads or writes. -/
structure State where
  pools : List Pool
  contributors : List Contributor
  servers : List Server
  assignments : List Assignment
deriving DecidableEq, Repr

/-- A parsed JSON request body; every field is optional, as in JSON. -/
structure Body where
  pool_id : Option Nat
  contributor_id : Option Nat
  status : Option Status
  cpu_cores : Option Int
  ram_gb : Option Int
  storage_gb : Option Int
deriving DecidableEq, Repr

/-- An HTTP response, reduced to the status code and the message the
handler puts in the JSON body. -/
structure Response where
  status : Nat
  msg : String
deriving DecidableEq, Repr

/-! ## Pool totals aggregator (`updatePoolTotals` in the source) -/

/-- The read performed by `updatePoolTotals`: all contributors of the pool
whose status is `online`. -/
def onlineContributors (st : State) (poolId : Nat) : List Contributor :=
  st.contributors.filter fun c => decide (c.pool_id = poolId ∧ c.status = Status.online)

/-- The three cached totals written onto a pool row. -/
structure Totals where
  total_cpu_cores : Int
  total_ram_gb : Int
  total_storage_gb : Int
deriving DecidableEq, Repr

/-- The `reduce` in `updatePoolTotals`: fold the contributor rows, coercing
null resource values to 0. -/
def computeTotals (cs : List Contributor) : Totals :=
  cs.foldl
    (fun acc c =>
      { total_cpu_cores := acc.total_cpu_cores + c.cpu_cores.getD 0
        total_ram_gb := acc.total_ram_gb + c.ram_gb.getD 0
        total_storage_gb := acc.total_storage_gb + c.storage_gb.getD 0 })
    { total_cpu_cores := 0, total_ram_gb := 0, total_storage_gb := 0 }

/-- The `pools` update in `updatePoolTotals`: overwrite the three total
fields of the row with the given pool id. -/
def setPoolTotals (t : Totals) (poolId : Nat) (ps : List Pool) : List Pool :=
  ps.map fun p =>
    if p.id = poolId then
      { p with
        total_cpu_cores := t.total_cpu_cores
        total_ram_gb := t.total_ram_gb
        total_storage_gb := t.total_storage_gb }
    else p

/-- `updatePoolTotals`, with the outcome of the contributor read made
explicit: `none` models a read whose `data` is null (the code returns
early), `some cs` a read that produced the row list `cs`. -/
def updatePoolTotals (readResult : Option (List Contributor)) (st : State) (poolId : Nat) :
    State :=
  match readResult with
  | none => st
  | some cs => { st with pools := setPoolTotals (computeTotals cs) poolId st.pools }

/-- `updatePoolTotals` when the contributor read succeeds, returning
exactly the online contributors currently in the database. -/
def updatePoolTotalsOk (st : State) (poolId : Nat) : State :=
  updatePoolTotals (some (onlineContributors st poolId)) st poolId

/-! ## POST /register -/

/-- The existing-contributor branch of `/register`: a full overwrite of the
resource fields (missing body fields become 0), status forced online,
`last_seen` set to now. -/
def regOverwrite (now : Nat) (b : Body) (c : Contributor) : Contributor :=
  { c with
    cpu_cores := some (b.cpu_cores.getD 0)
    ram_gb := some (b.ram_gb.getD 0)
    storage_gb := some (b.storage_gb.getD 0)
    status := Status.online
    last_seen := some now }

/-- The `/register` handler.  `newId` is the id the database would assign
to a freshly inserted contributor row. -/
def register (now newId : Nat) (b : Body) (uid : Nat) (st : State) : State × Response :=
  match b.pool_id with
  | none => (st, ⟨400, "pool_id is required"⟩)
  | some pid =>
    match st.pools.find? (fun p => decide (p.id = pid)) with
    | none => (st, ⟨404, "Pool not found"⟩)
    | some _pool =>
      match st.contributors.find? (fun c => decide (c.pool_id = pid ∧ c.user_id = uid)) with
      | some existing =>
        let st1 : State :=
          { st with
            contributors :=
              st.contributors.map fun c =>
                if c.id = existing.id then regOverwrite now b c else c }
        (updatePoolTotalsOk st1 pid, ⟨200, "Agent reconnected to pool"⟩)
      | none =>
        let newRow : Contributor :=
          { id := newId
            pool_id := pid
            user_id := uid
            cpu_cores := some (b.cpu_cores.getD 0)
            ram_gb := some (b.ram_gb.getD 0)
            storage_gb := some (b.storage_gb.getD 0)
            status := Status.online
            last_seen := some now }
        let st1 : State := { st with contributors := st.contributors ++ [newRow] }
        (updatePoolTotalsOk st1 pid, ⟨200, "Agent registered successfully"⟩)

/-! ## POST /heartbeat -/

/-- The `updateData` applied by `/heartbeat`: status (defaulting to online)
and `last_seen` always, resource fields only when present in the body. -/
def applyHeartbeat (now : Nat) (b : Body) (c : Contributor) : Contributor :=
  { c with
    status := b.status.getD Status.online
    last_seen := some now
    cpu_cores := match b.cpu_cores with | some v => some v | none => c.cpu_cores
    ram_gb := match b.ram_gb with | some v => some v | none => c.ram_gb
    storage_gb := match b.storage_gb with | some v => some v | none => c.storage_gb }

/-- Result of a heartbeat call; `aggregated` records whether the handler
invoked the pool-totals aggregator. -/
structure HBOut where
  state : State
  resp : Response
  aggregated : Bool
deriving Repr

/-- The condition at the end of `/heartbeat`: was any resource field
present in the request body? -/
def resourcesPresent (b : Body) : Bool :=
  b.cpu_cores.isSome || b.ram_gb.isSome || b.storage_gb.isSome

/-- The `/heartbeat` handler.  The update is scoped to rows whose id is the
given contributor id and whose `user_id` is the caller; when no such row
exists, `.single()` fails and the handler answers 500. -/
def heartbeat (now : Nat) (b : Body) (uid : Nat) (st : State) : HBOut :=
  match b.contributor_id with
  | none => ⟨st, ⟨400, "contributor_id is required"⟩, false⟩
  | some cid =>
    match st.contributors.find? (fun c => decide (c.id = cid ∧ c.user_id = uid)) with
    | none => ⟨st, ⟨500, "Failed to update heartbeat"⟩, false⟩
    | some c0 =>
      let st1 : State :=
        { st with
          contributors :=
            st.contributors.map fun c =>
              if c.id = cid ∧ c.user_id = uid then applyHeartbeat now b c else c }
      if resourcesPresent b then
        ⟨updatePoolTotalsOk st1 c0.pool_id, ⟨200, "Heartbeat received"⟩, true⟩
      else
        ⟨st1, ⟨200, "Heartbeat received"⟩, false⟩

/-! ## POST /disconnect -/

/-- The `/disconnect` handler: set the caller's row offline and refresh
`last_seen`; it never invokes the pool-totals aggregator. -/
def disconnect (now : Nat) (b : Body) (uid : Nat) (st : State) : State × Response :=
  match b.contributor_id with
  | none => (st, ⟨400, "contributor_id is required"⟩)
  | some cid =>
    match st.contributors.find? (fun c => decide (c.id = cid ∧ c.user_id = uid)) with
    | none => (st, ⟨500, "Failed to disconnect"⟩)
    | some _c0 =>
      ({ st with
          contributors :=
            st.contributors.map fun c =>
              if c.id = cid ∧ c.user_id = uid then
                { c with status := Status.offline, last_seen := some now }
              else c },
        ⟨200, "Agent disconnected"⟩)

/-! ## Routing and authentication (the `Deno.serve` handler) -/

/-- Remove the first occurrence of `pat` from `l`; this is JavaScript's
`String.prototype.replace` with a string pattern and empty replacement. -/
def removeFirstAux (pat : List Char) : List Char → List Char
  | [] => []
  | c :: rest =>
    if pat.isPrefixOf (c :: rest) then (c :: rest).drop pat.length
    else c :: removeFirstAux pat rest

/-- String form of `removeFirstAux`. -/
def removeFirst (pat s : String) : String :=
  String.mk (removeFirstAux pat.toList s.toList)

/-- Does `l` contain `pat` as a contiguous sublist? -/
def hasSubAux (pat : List Char) : List Char → Bool
  | [] => pat.isEmpty
  | c :: rest => pat.isPrefixOf (c :: rest) || hasSubAux pat rest

/-- Does the string `s` contain the substring `pat`? -/
def hasSub (pat s : String) : Bool :=
  hasSubAux pat.toList s.toList

/-- The literal scheme text stripped from the Authorization header. -/
def bearerTag : String := "Bearer "

/-- The function-route path segment stripped from the inbound path. -/
def apiTag : String := "/agent-api"

/-- The path segment introducing the pool-details route. -/
def poolRouteTag : String := "/pool/"

/-- The path segment introducing the invite-lookup route. -/
def joinRouteTag : String := "/join/"

/-- The `GET /pool/:id` route: fetch a pool by id, no ownership check. -/
def getPool (poolIdStr : String) (st : State) : State × Response :=
  match st.pools.find? (fun p => decide (toString p.id = poolIdStr)) with
  | none => (st, ⟨404, "Pool not found"⟩)
  | some _ => (st, ⟨200, "pool"⟩)

/-- The `POST /join/:invite_code` route: resolve an invite code. -/
def joinLookup (code : String) (st : State) : State × Response :=
  match st.pools.find? (fun p => decide (p.invite_code = code)) with
  | none => (st, ⟨404, "Invalid invite code"⟩)
  | some _ => (st, ⟨200, "Use register with this pool id to join"⟩)

/-- An inbound HTTP request; `authHeader` is `none` when the Authorization
header is absent. -/
structure Request where
  method : String
  path : String
  authHeader : Option String
  body : Body
deriving Repr

/-- Route dispatch after authentication, mirroring the if-chain of the
source handler. -/
def dispatch (now newId : Nat) (req : Request) (uid : Nat) (st : State) : State × Response :=
  let path := removeFirst apiTag req.path
  if req.method = "POST" ∧ path = "/register" then
    register now newId req.body uid st
  else if req.method = "POST" ∧ path = "/heartbeat" then
    let r := heartbeat now req.body uid st
    (r.state, r.resp)
  else if req.method = "POST" ∧ path = "/disconnect" then
    disconnect now req.body uid st
  else if req.method = "GET" ∧ path = "/pools" then
    (st, ⟨200, "pools"⟩)
  else if req.method = "GET" ∧ path.startsWith poolRouteTag then
    getPool (removeFirst poolRouteTag path) st
  else if req.method = "POST" ∧ path.startsWith joinRouteTag then
    joinLookup (removeFirst joinRouteTag path) st
  else
    (st, ⟨404, "Not found"⟩)

/-- The top-level `Deno.serve` handler: answer CORS preflight, then require
an Authorization header (the empty string is falsy in JavaScript, so it
also takes the missing-header branch), strip the first occurrence of
`"Bearer "`, hand the remainder to the token verifier, and only then
dispatch the route.  `verify` abstracts `supabase.auth.getUser`. -/
def serve (verify : String → Option Nat) (now newId : Nat) (req : Request) (st : State) :
    State × Response :=
  if req.method = "OPTIONS" then
    (st, ⟨200, ""⟩)
  else
    match req.authHeader with
    | none => (st, ⟨401, "Missing authorization header"⟩)
    | some h =>
      if h = "" then (st, ⟨401, "Missing authorization header"⟩)
      else
        match verify (removeFirst bearerTag h) with
        | none => (st, ⟨401, "Invalid or expired token"⟩)
        | some uid => dispatch now newId req uid st

/-! ## The SQL visibility predicate `users_share_pool` -/

/-- `public.users_share_pool(viewer_id, target_id)` from the migration.
The first disjunct is the direct pool co-membership query (the LEFT JOIN
makes the viewer-side contributor test an existential over the pool's
contributor rows); the second is the server-to-pool transitivity query. -/
def users_share_pool (st : State) (viewer target : Nat) : Bool :=
  (st.pools.any fun p =>
    (decide (p.owner_id = viewer) ||
      st.contributors.any fun pc => decide (pc.pool_id = p.id ∧ pc.user_id = viewer)) &&
    (decide (p.owner_id = target) ||
      st.contributors.any fun pc2 => decide (pc2.pool_id = p.id ∧ pc2.user_id = target)))
  ||
  (st.servers.any fun s =>
    decide (s.owner_id = viewer) &&
    st.assignments.any fun spa =>
      decide (spa.server_id = s.id) &&
      st.pools.any fun p =>
        decide (p.id = spa.pool_id) &&
        (decide (p.owner_id = target) ||
          st.contributors.any fun pc => decide (pc.pool_id = p.id ∧ pc.user_id = target)))

/-! ## Specification-side definitions -/

/-- Specification-side sum of a resource field over rows, nulls as 0. -/
def sumBy (f : Contributor → Option Int) (cs : List Contributor) : Int :=
  (cs.map fun c => (f c).getD 0).sum

/-- The derived invariant claimed by the specification: the cached totals
of the pool with id `poolId` equal the sums of the resource fields over
that pool's online contributor rows. -/
def totalsOkAt (st : State) (poolId : Nat) : Prop :=
  ∀ p ∈ st.pools, p.id = poolId →
    p.total_cpu_cores = sumBy (fun c => c.cpu_cores) (onlineContributors st poolId) ∧
    p.total_ram_gb = sumBy (fun c => c.ram_gb) (onlineContributors st poolId) ∧
    p.total_storage_gb = sumBy (fun c => c.storage_gb) (onlineContributors st poolId)

/-- Membership of a user in a pool in the sense of the visibility
predicate: owner of the pool, or holder of a contributor row for it. -/
def memberOf (st : State) (x : Nat) (p : Pool) : Prop :=
  p.owner_id = x ∨ ∃ pc ∈ st.contributors, pc.pool_id = p.id ∧ pc.user_id = x

/-- The contributor rows of a given (pool, user) pair; the database's
UNIQUE(pool_id, user_id) constraint keeps this list at length at most 1. -/
def pairRows (st : State) (pid uid : Nat) : List Contributor :=
  st.contributors.filter fun c => decide (c.pool_id = pid ∧ c.user_id = uid)

/-! ## Concrete fixtures used by witnesses and counterexamples -/

/-- A pool with empty cached totals, owned by user 0. -/
def pool1 : Pool :=
  { id := 1, owner_id := 0, invite_code := "abc", total_cpu_cores := 0,
    total_ram_gb := 0, total_storage_gb := 0 }

/-- Initial state: one pool, no contributors. -/
def st0 : State := { pools := [pool1], contributors := [], servers := [], assignments := [] }

/-- A registration body declaring cpu 4, ram 8, storage 50 for pool 1. -/
def regBody : Body :=
  { pool_id := some 1, contributor_id := none, status := none,
    cpu_cores := some 4, ram_gb := some 8, storage_gb := some 50 }

/-- A second registration body with different resource values. -/
def regBody2 : Body :=
  { pool_id := some 1, contributor_id := none, status := none,
    cpu_cores := some 2, ram_gb := some 4, storage_gb := some 20 }

/-- A body naming contributor 10 and carrying no resource fields. -/
def dcBody : Body :=
  { pool_id := none, contributor_id := some 10, status := none,
    cpu_cores := none, ram_gb := none, storage_gb := none }

/-- A heartbeat body naming contributor 10 that carries a resource field
and an explicit offline status. -/
def regHbBody : Body :=
  { pool_id := none, contributor_id := some 10, status := some Status.offline,
    cpu_cores := some 16, ram_gb := none, storage_gb := none }

/-- An online contributor row with id 10 owned by user 5 in pool 1. -/
def exRow5 : Contributor :=
  { id := 10, pool_id := 1, user_id := 5, cpu_cores := some 4, ram_gb := some 8,
    storage_gb := some 50, status := Status.online, last_seen := some 0 }

/-- A state holding `exRow5` as its single contributor row. -/
def exSt5 : State :=
  { pools := [pool1], contributors := [exRow5], servers := [], assignments := [] }

/-- A state exhibiting the asymmetry of the server-transitivity branch:
user 1 owns server 100, which is assigned to pool 200; pool 200 is owned
by user 2 and has user 3 as a contributor; users 1 and 3 share no pool. -/
def exSt7 : State :=
  { pools := [{ id := 200, owner_id := 2, invite_code := "z", total_cpu_cores := 0,
                total_ram_gb := 0, total_storage_gb := 0 }],
    contributors := [{ id := 11, pool_id := 200, user_id := 3, cpu_cores := none,
                       ram_gb := none, storage_gb := none, status := Status.offline,
                       last_seen := none }],
    servers := [{ id := 100, owner_id := 1 }],
    assignments := [{ server_id := 100, pool_id := 200 }] }

/-- A POST request to the heartbeat route carrying no Authorization header. -/
def reqNoAuth : Request :=
  { method := "POST", path := "/agent-api/heartbeat", authHeader := none, body := dcBody }

/-- A POST request to the heartbeat route with a well-formed bearer header. -/
def reqHB : Request :=
  { method := "POST", path := "/agent-api/heartbeat", authHeader := some "Bearer t",
    body := dcBody }

/-! ## Helper lemmas -/

theorem computeTotals_foldl (cs : List Contributor) (acc : Totals) :
    cs.foldl
      (fun acc c =>
        { total_cpu_cores := acc.total_cpu_cores + c.cpu_cores.getD 0
          total_ram_gb := acc.total_ram_gb + c.ram_gb.getD 0
          total_storage_gb := acc.total_storage_gb + c.storage_gb.getD 0 })
      acc =
      { total_cpu_cores := acc.total_cpu_cores + sumBy (fun c => c.cpu_cores) cs
        total_ram_gb := acc.total_ram_gb + sumBy (fun c => c.ram_gb) cs
        total_storage_gb := acc.total_storage_gb + sumBy (fun c => c.storage_gb) cs } := by
  induction cs generalizing acc with
  | nil => simp [sumBy]
  | cons c rest ih => simp [sumBy, ih, add_assoc]

theorem computeTotals_eq (cs : List Contributor) :
    computeTotals cs =
      { total_cpu_cores := sumBy (fun c => c.cpu_cores) cs
        total_ram_gb := sumBy (fun c => c.ram_gb) cs
        total_storage_gb := sumBy (fun c => c.storage_gb) cs } := by
  rw [computeTotals, computeTotals_foldl]
  simp

theorem mem_setPoolTotals_totals {p : Pool} {t : Totals} {poolId : Nat} {ps : List Pool}
    (hp : p ∈ setPoolTotals t poolId ps) (hid : p.id = poolId) :
    p.total_cpu_cores = t.total_cpu_cores ∧ p.total_ram_gb = t.total_ram_gb ∧
      p.total_storage_gb = t.total_storage_gb := by
  simp only [setPoolTotals, List.mem_map] at hp
  obtain ⟨q, hq, rfl⟩ := hp
  by_cases h : q.id = poolId
  · simp [h]
  · simp only [if_neg h] at hid
    exact absurd hid h

theorem contributors_updatePoolTotals (r : Option (List Contributor)) (st : State)
    (poolId : Nat) : (updatePoolTotals r st poolId).contributors = st.contributors := by
  cases r <;> rfl

theorem totalsOkAt_updatePoolTotalsOk (st : State) (poolId : Nat) :
    totalsOkAt (updatePoolTotalsOk st poolId) poolId := by
  intro p hp hid
  have hon : onlineContributors (updatePoolTotalsOk st poolId) poolId
      = onlineContributors st poolId := rfl
  have hp' : p ∈ setPoolTotals (computeTotals (onlineContributors st poolId)) poolId
      st.pools := hp
  have := mem_setPoolTotals_totals hp' hid
  rw [hon, computeTotals_eq] at *
  exact this

theorem register_insert_eq (now newId : Nat) (b : Body) (uid : Nat) (st : State) (pid : Nat)
    (pl : Pool)
    (hb : b.pool_id = some pid)
    (hfp : st.pools.find? (fun p => decide (p.id = pid)) = some pl)
    (hfc : st.contributors.find? (fun c => decide (c.pool_id = pid ∧ c.user_id = uid))
      = none) :
    register now newId b uid st =
      (updatePoolTotalsOk
        { st with
          contributors := st.contributors ++
            [{ id := newId, pool_id := pid, user_id := uid,
               cpu_cores := some (b.cpu_cores.getD 0), ram_gb := some (b.ram_gb.getD 0),
               storage_gb := some (b.storage_gb.getD 0), status := Status.online,
               last_seen := some now }] } pid,
        ⟨200, "Agent registered successfully"⟩) := by
  simp only [register, hb, hfp, hfc]

theorem register_update_eq (now newId : Nat) (b : Body) (uid : Nat) (st : State) (pid : Nat)
    (pl : Pool) (ex : Contributor)
    (hb : b.pool_id = some pid)
    (hfp : st.pools.find? (fun p => decide (p.id = pid)) = some pl)
    (hfc : st.contributors.find? (fun c => decide (c.pool_id = pid ∧ c.user_id = uid))
      = some ex) :
    register now newId b uid st =
      (updatePoolTotalsOk
        { st with
          contributors := st.contributors.map fun c =>
            if c.id = ex.id then regOverwrite now b c else c } pid,
        ⟨200, "Agent reconnected to pool"⟩) := by
  simp only [register, hb, hfp, hfc]

theorem find?_pools_isSome (ps : List Pool) (pid : Nat) (p0 : Pool) (hp0 : p0 ∈ ps)
    (hpid : p0.id = pid) :
    ∃ pl, ps.find? (fun p => decide (p.id = pid)) = some pl := by
  have : (ps.find? (fun p => decide (p.id = pid))).isSome :=
    List.find?_isSome.mpr ⟨p0, hp0, by simp [hpid]⟩
  exact Option.isSome_iff_exists.mp this

theorem mem_setPoolTotals_of_mem (t : Totals) (poolId : Nat) (ps : List Pool) (p0 : Pool)
    (hp0 : p0 ∈ ps) :
    ∃ q ∈ setPoolTotals t poolId ps, q.id = p0.id := by
  refine ⟨_, List.mem_map_of_mem _ hp0, ?_⟩
  by_cases h : p0.id = poolId <;> simp [h]

theorem totals_of_single_online (st' : State) (pid : Nat) (R : Contributor)
    (l : List Contributor) (hc : st'.contributors = l ++ [R])
    (hoff : ∀ c ∈ l, ¬(c.pool_id = pid ∧ c.status = Status.online))
    (hR : R.pool_id = pid ∧ R.status = Status.online) :
    ∀ p ∈ (updatePoolTotalsOk st' pid).pools, p.id = pid →
      p.total_cpu_cores = R.cpu_cores.getD 0 ∧ p.total_ram_gb = R.ram_gb.getD 0 ∧
        p.total_storage_gb = R.storage_gb.getD 0 := by
  intro p hp hpid
  have hon : onlineContributors st' pid = [R] := by
    unfold onlineContributors
    rw [hc, List.filter_append]
    have h1 : l.filter (fun c => decide (c.pool_id = pid ∧ c.status = Status.online)) = [] :=
      List.filter_eq_nil_iff.mpr (by intro a ha; simpa using hoff a ha)
    rw [h1]
    simp [hR.1, hR.2]
  have hp' : p ∈ setPoolTotals (computeTotals (onlineContributors st' pid)) pid
      st'.pools := hp
  have := mem_setPoolTotals_totals hp' hpid
  rw [hon, computeTotals_eq] at this
  simpa [sumBy] using this

theorem removeFirstAux_of_hasSubAux_false (pat : List Char) (l : List Char)
    (hns : hasSubAux pat l = false) : removeFirstAux pat l = l := by
  induction l with
  | nil => rfl
  | cons c rest ih =>
    unfold hasSubAux at hns
    rw [Bool.or_eq_false_iff] at hns
    simp only [removeFirstAux, hns.1, Bool.false_eq_true, if_false, ih hns.2]

theorem removeFirst_of_hasSub_false (pat s : String) (hns : hasSub pat s = false) :
    removeFirst pat s = s := by
  unfold removeFirst
  rw [removeFirstAux_of_hasSubAux_false pat.toList s.toList hns]
  cases s
  rfl

theorem serve_none_eq (verify : String → Option Nat) (now newId : Nat) (req : Request)
    (st : State) (hm : req.method ≠ "OPTIONS") (hh : req.authHeader = none) :
    serve verify now newId req st = (st, ⟨401, "Missing authorization header"⟩) := by
  unfold serve
  rw [if_neg hm, hh]

theorem serve_some_eq (verify : String → Option Nat) (now newId : Nat) (req : Request)
    (st : State) (h : String) (hm : req.method ≠ "OPTIONS") (hh : req.authHeader = some h) :
    serve verify now newId req st =
      (if h = "" then (st, ⟨401, "Missing authorization header"⟩)
       else
        match verify (removeFirst bearerTag h) with
        | none => (st, ⟨401, "Invalid or expired token"⟩)
        | some uid => dispatch now newId req uid st) := by
  unfold serve
  rw [if_neg hm, hh]

theorem register_status_ne_401 (now newId : Nat) (b : Body) (uid : Nat) (st : State) :
    (register now newId b uid st).2.status ≠ 401 := by
  unfold register
  split
  · intro hcon; simp at hcon
  · split
    · intro hcon; simp at hcon
    · split
      · intro hcon; simp at hcon
      · intro hcon; simp at hcon

theorem heartbeat_status_ne_401 (now : Nat) (b : Body) (uid : Nat) (st : State) :
    (heartbeat now b uid st).resp.status ≠ 401 := by
  unfold heartbeat
  split
  · intro hcon; simp at hcon
  · split
    · intro hcon; simp at hcon
    · split
      · intro hcon; simp at hcon
      · intro hcon; simp at hcon

theorem disconnect_status_ne_401 (now : Nat) (b : Body) (uid : Nat) (st : State) :
    (disconnect now b uid st).2.status ≠ 401 := by
  unfold disconnect
  split
  · intro hcon; simp at hcon
  · split
    · intro hcon; simp at hcon
    · intro hcon; simp at hcon

theorem getPool_status_ne_401 (s : String) (st : State) :
    (getPool s st).2.status ≠ 401 := by
  unfold getPool
  split
  · intro hcon; simp at hcon
  · intro hcon; simp at hcon

theorem joinLookup_status_ne_401 (s : String) (st : State) :
    (joinLookup s st).2.status ≠ 401 := by
  unfold joinLookup
  split
  · intro hcon; simp at hcon
  · intro hcon; simp at hcon

theorem dispatch_status_ne_401 (now newId : Nat) (req : Request) (uid : Nat) (st : State) :
    (dispatch now newId req uid st).2.status ≠ 401 := by
  simp only [dispatch]
  split
  · exact register_status_ne_401 _ _ _ _ _
  · split
    · exact heartbeat_status_ne_401 _ _ _ _
    · split
      · exact disconnect_status_ne_401 _ _ _ _
      · split
        · intro hcon; simp at hcon
        · split
          · exact getPool_status_ne_401 _ _
          · split
            · exact joinLookup_status_ne_401 _ _
            · intro hcon; simp at hcon

theorem share_of_memberOf (st : State) (a b : Nat) (p : Pool) (hp : p ∈ st.pools)
    (ha : memberOf st a p) (hb : memberOf st b p) :
    users_share_pool st a b = true := by
  unfold users_share_pool
  rw [Bool.or_eq_true]
  left
  rw [List.any_eq_true]
  refine ⟨p, hp, ?_⟩
  rw [Bool.and_eq_true, Bool.or_eq_true, Bool.or_eq_true]
  constructor
  · rcases ha with h | ⟨pc, hpc, h1, h2⟩
    · left; simpa using h
    · right; rw [List.any_eq_true]; exact ⟨pc, hpc, by simp [h1, h2]⟩
  · rcases hb with h | ⟨pc, hpc, h1, h2⟩
    · left; simpa using h
    · right; rw [List.any_eq_true]; exact ⟨pc, hpc, by simp [h1, h2]⟩

/-! ## Claim theorems -/

/-- Claim C10: `updatePoolTotals` writes the pool's three total fields only
when the contributor read yields a result list.  A read that returns no
data leaves the state entirely unchanged (stale totals are kept), while a
successful read of an empty list overwrites all three totals with 0 and
touches no other pool row. -/
theorem c10_updatePoolTotals_guard (st : State) (poolId : Nat) :
    updatePoolTotals none st poolId = st ∧
    (updatePoolTotals (some []) st poolId).contributors = st.contributors ∧
    ∀ p ∈ (updatePoolTotals (some []) st poolId).pools,
      (p.id = poolId →
        p.total_cpu_cores = 0 ∧ p.total_ram_gb = 0 ∧ p.total_storage_gb = 0) ∧
      (p.id ≠ poolId → p ∈ st.pools) := by
  refine ⟨rfl, rfl, ?_⟩
  intro p hp
  have hp' : p ∈ setPoolTotals (computeTotals []) poolId st.pools := hp
  constructor
  · intro hid
    have := mem_setPoolTotals_totals hp' hid
    simpa [computeTotals_eq, sumBy] using this
  · intro hid
    simp only [setPoolTotals, List.mem_map] at hp'
    obtain ⟨q, hq, rfl⟩ := hp'
    by_cases h : q.id = poolId
    · simp only [if_pos h] at hid
      exact absurd h hid
    · simpa [if_neg h] using hq

/-- Witness for C10 at a concrete state. -/
theorem c10_witness :
    updatePoolTotals none st0 1 = st0 ∧
    pool1 ∈ (updatePoolTotals (some []) st0 1).pools ∧
    pool1.total_cpu_cores = 0 ∧ pool1.total_ram_gb = 0 ∧ pool1.total_storage_gb = 0 := by
  have h := c10_updatePoolTotals_guard st0 1
  exact ⟨h.1, by decide, (h.2.2 pool1 (by decide)).1 (by decide)⟩

/-- Claim C1 as stated is false: Disconnect performs no re-aggregation, so
after registering one online contributor (cpu 4, ram 8, storage 50) and
then disconnecting it, the pool's cached totals still read 4/8/50 while
the sum over online contributors is 0. -/
theorem c1_counterexample :
    ¬ totalsOkAt (disconnect 1 dcBody 5 (register 0 10 regBody 5 st0).1).1 1 := by
  unfold totalsOkAt
  decide

/-- Claim C1 (amended): after a successful Register the affected pool's
cached totals equal the sums of cpu/ram/storage over its online
contributor rows (nulls as 0); likewise after a successful Heartbeat that
carried at least one resource field, for the contributor's pool; but
Disconnect never re-aggregates — it leaves every pool row unchanged, so
its totals may go stale. -/
theorem c1_amended_totals (now newId : Nat) (b : Body) (uid : Nat) (st : State) (pid : Nat) :
    (b.pool_id = some pid → (∃ p0 ∈ st.pools, p0.id = pid) →
      totalsOkAt (register now newId b uid st).1 pid) ∧
    (∀ cid c0, b.contributor_id = some cid →
      st.contributors.find? (fun c => decide (c.id = cid ∧ c.user_id = uid)) = some c0 →
      resourcesPresent b = true →
      totalsOkAt (heartbeat now b uid st).state c0.pool_id) ∧
    (disconnect now b uid st).1.pools = st.pools := by
  refine ⟨?_, ?_, ?_⟩
  · intro hb hex
    obtain ⟨p0, hp0, hpid⟩ := hex
    obtain ⟨pl, hfp⟩ := find?_pools_isSome st.pools pid p0 hp0 hpid
    cases hfc : st.contributors.find? (fun c => decide (c.pool_id = pid ∧ c.user_id = uid)) with
    | none =>
      rw [register_insert_eq now newId b uid st pid pl hb hfp hfc]
      exact totalsOkAt_updatePoolTotalsOk _ _
    | some ex =>
      rw [register_update_eq now newId b uid st pid pl ex hb hfp hfc]
      exact totalsOkAt_updatePoolTotalsOk _ _
  · intro cid c0 hcid hfind hres
    simp only [heartbeat, hcid, hfind, hres, if_true]
    exact totalsOkAt_updatePoolTotalsOk _ _
  · unfold disconnect
    split
    · rfl
    · split
      · rfl
      · rfl

/-- Witness for the amended C1 at a concrete registration. -/
theorem c1_amended_witness :
    regBody.pool_id = some 1 ∧ (∃ p0 ∈ st0.pools, p0.id = 1) ∧
    totalsOkAt (register 0 10 regBody 5 st0).1 1 :=
  ⟨rfl, ⟨pool1, by decide, rfl⟩,
    (c1_amended_totals 0 10 regBody 5 st0 1).1 rfl ⟨pool1, by decide, rfl⟩⟩

/-- Claim C3: every successful Heartbeat refreshes the matched row's
`last_seen` to now and sets its status to the provided value (defaulting
to online when absent); and when the body carries no cpu/ram/storage
fields, every row's resource values stay at their prior stored values. -/
theorem c3_heartbeat_frame_effect (now : Nat) (b : Body) (uid : Nat) (st : State)
    (cid : Nat) (c0 : Contributor)
    (hcid : b.contributor_id = some cid)
    (hfind : st.contributors.find? (fun c => decide (c.id = cid ∧ c.user_id = uid))
      = some c0) :
    (heartbeat now b uid st).resp.status = 200 ∧
    (∀ c2 ∈ (heartbeat now b uid st).state.contributors,
      c2.id = cid → c2.user_id = uid →
      c2.status = b.status.getD Status.online ∧ c2.last_seen = some now) ∧
    (b.cpu_cores = none → b.ram_gb = none → b.storage_gb = none →
      (heartbeat now b uid st).state.contributors.map (fun c => c.cpu_cores)
        = st.contributors.map (fun c => c.cpu_cores) ∧
      (heartbeat now b uid st).state.contributors.map (fun c => c.ram_gb)
        = st.contributors.map (fun c => c.ram_gb) ∧
      (heartbeat now b uid st).state.contributors.map (fun c => c.storage_gb)
        = st.contributors.map (fun c => c.storage_gb)) := by
  have hstatus : (heartbeat now b uid st).resp.status = 200 := by
    simp only [heartbeat, hcid, hfind]
    by_cases hres : resourcesPresent b = true
    · rw [if_pos hres]
    · rw [if_neg hres]
  have hc : (heartbeat now b uid st).state.contributors =
      st.contributors.map fun c =>
        if c.id = cid ∧ c.user_id = uid then applyHeartbeat now b c else c := by
    simp only [heartbeat, hcid, hfind]
    by_cases hres : resourcesPresent b = true
    · rw [if_pos hres]
      exact contributors_updatePoolTotals _ _ _
    · rw [if_neg hres]
  refine ⟨hstatus, ?_, ?_⟩
  · intro c2 hc2 h1 h2
    rw [hc] at hc2
    simp only [List.mem_map] at hc2
    obtain ⟨a, _, rfl⟩ := hc2
    by_cases h : a.id = cid ∧ a.user_id = uid
    · simp [h, applyHeartbeat]
    · simp only [if_neg h] at h1 h2 ⊢
      exact absurd ⟨h1, h2⟩ h
  · intro hcpu hram hsto
    rw [hc]
    refine ⟨?_, ?_, ?_⟩
    · rw [List.map_map]
      refine List.map_congr_left fun a _ => ?_
      by_cases h : a.id = cid ∧ a.user_id = uid
      · simp [Function.comp, h, applyHeartbeat, hcpu]
      · simp [Function.comp, h]
    · rw [List.map_map]
      refine List.map_congr_left fun a _ => ?_
      by_cases h : a.id = cid ∧ a.user_id = uid
      · simp [Function.comp, h, applyHeartbeat, hram]
      · simp [Function.comp, h]
    · rw [List.map_map]
      refine List.map_congr_left fun a _ => ?_
      by_cases h : a.id = cid ∧ a.user_id = uid
      · simp [Function.comp, h, applyHeartbeat, hsto]
      · simp [Function.comp, h]

/-- Witness for C3: a status-only heartbeat against a concrete row, and a
resource-carrying heartbeat whose matched row still gets status/last_seen
applied. -/
theorem c3_witness :
    ((heartbeat 7 dcBody 5 exSt5).resp.status = 200 ∧
      (heartbeat 7 dcBody 5 exSt5).state.contributors.map (fun c => c.cpu_cores)
        = exSt5.contributors.map (fun c => c.cpu_cores) ∧
      ∀ c2 ∈ (heartbeat 7 dcBody 5 exSt5).state.contributors,
        c2.id = 10 → c2.user_id = 5 →
        c2.status = Status.online ∧ c2.last_seen = some 7) ∧
    ∀ c2 ∈ (heartbeat 9 regHbBody 5 exSt5).state.contributors,
      c2.id = 10 → c2.user_id = 5 →
      c2.status = Status.offline ∧ c2.last_seen = some 9 := by
  have h1 := c3_heartbeat_frame_effect 7 dcBody 5 exSt5 10 exRow5 rfl (by decide)
  have h2 := c3_heartbeat_frame_effect 9 regHbBody 5 exSt5 10 exRow5 rfl (by decide)
  exact ⟨⟨h1.1, (h1.2.2 rfl rfl rfl).1, h1.2.1⟩, h2.2.1⟩

/-- Claim C4 (formulated with the handler's own aggregation flag): on a
successful heartbeat the aggregator runs exactly when `resourcesPresent`
holds, i.e. when at least one of cpu/ram/storage was present in the body;
and any heartbeat without resource fields — whatever status transition it
carries — leaves every pool row, hence every cached total, unchanged. -/
theorem c4_heartbeat_aggregation_iff (now : Nat) (b : Body) (uid : Nat) (st : State) :
    ((heartbeat now b uid st).resp.status = 200 →
      (heartbeat now b uid st).aggregated = resourcesPresent b) ∧
    (resourcesPresent b = true ↔
      (b.cpu_cores.isSome = true ∨ b.ram_gb.isSome = true ∨ b.storage_gb.isSome = true)) ∧
    (b.cpu_cores = none → b.ram_gb = none → b.storage_gb = none →
      (heartbeat now b uid st).state.pools = st.pools) := by
  refine ⟨?_, ?_, ?_⟩
  · unfold heartbeat
    split
    · intro h; simp at h
    · split
      · intro h; simp at h
      · intro _
        by_cases hres : resourcesPresent b = true
        · simp only [if_pos hres]
          rw [hres]
        · simp only [if_neg hres]
          simp only [Bool.not_eq_true] at hres
          rw [hres]
  · simp [resourcesPresent, Bool.or_eq_true, or_assoc]
  · intro h1 h2 h3
    have hres : resourcesPresent b = false := by simp [resourcesPresent, h1, h2, h3]
    unfold heartbeat
    split
    · rfl
    · split
      · rfl
      · simp only [hres, Bool.false_eq_true, if_false]

/-- Witness for C4: a status-only heartbeat at a concrete state. -/
theorem c4_witness :
    (heartbeat 7 dcBody 5 exSt5).resp.status = 200 ∧
    (heartbeat 7 dcBody 5 exSt5).aggregated = resourcesPresent dcBody ∧
    (heartbeat 7 dcBody 5 exSt5).state.pools = exSt5.pools := by
  have h := c4_heartbeat_aggregation_iff 7 dcBody 5 exSt5
  exact ⟨by decide, h.1 (by decide), h.2.2 rfl rfl rfl⟩

/-- Claim C5 as stated is false: a heartbeat or disconnect naming an
existing contributor row owned by a different user does fail without
mutating anything, but with status 500 (the scoped update's store error
is surfaced as a generic failure), not a NotFound-class 404. -/
theorem c5_counterexample :
    (heartbeat 7 dcBody 6 exSt5).resp.status = 500 ∧
    (heartbeat 7 dcBody 6 exSt5).resp.status ≠ 404 ∧
    (heartbeat 7 dcBody 6 exSt5).state = exSt5 ∧
    (disconnect 7 dcBody 6 exSt5).2.status = 500 ∧
    (disconnect 7 dcBody 6 exSt5).2.status ≠ 404 ∧
    (disconnect 7 dcBody 6 exSt5).1 = exSt5 := by
  decide

/-- Claim C5 (amended): a Heartbeat or Disconnect whose contributor_id does
not name a row owned by the caller — nonexistent id, or an id belonging to
a different user — fails with a 500-class error and mutates no
PoolContributor row. -/
theorem c5_scoped_update_isolation (now : Nat) (b : Body) (uid : Nat) (st : State)
    (cid : Nat)
    (hcid : b.contributor_id = some cid)
    (hnone : ∀ c ∈ st.contributors, ¬(c.id = cid ∧ c.user_id = uid)) :
    (heartbeat now b uid st).state = st ∧ (heartbeat now b uid st).resp.status = 500 ∧
    (disconnect now b uid st).1 = st ∧ (disconnect now b uid st).2.status = 500 := by
  have hf : st.contributors.find? (fun c => decide (c.id = cid ∧ c.user_id = uid)) = none :=
    List.find?_eq_none.mpr (by intro x hx; simpa using hnone x hx)
  refine ⟨?_, ?_, ?_, ?_⟩ <;> simp only [heartbeat, disconnect, hcid, hf]

/-- Witness for the amended C5: user 6 targets user 5's row. -/
theorem c5_amended_witness :
    (heartbeat 8 dcBody 6 exSt5).state = exSt5 ∧
    (heartbeat 8 dcBody 6 exSt5).resp.status = 500 ∧
    (disconnect 8 dcBody 6 exSt5).1 = exSt5 ∧
    (disconnect 8 dcBody 6 exSt5).2.status = 500 :=
  c5_scoped_update_isolation 8 dcBody 6 exSt5 10 rfl (by decide)

/-- Claim C2: from a state with no contributor row for (pool, caller) and a
fresh insert id, registering twice with different resource values leaves
exactly one PoolContributor row for the pair; its fields equal the second
call's values with omitted fields zeroed, its status is online; and if
every other contributor of the pool is offline, the pool totals equal the
second call's values. -/
theorem c2_register_twice
    (now1 now2 newId1 newId2 : Nat) (b1 b2 : Body) (uid : Nat) (st : State) (pid : Nat)
    (p0 : Pool) (hp0 : p0 ∈ st.pools) (hpid : p0.id = pid)
    (hb1 : b1.pool_id = some pid) (hb2 : b2.pool_id = some pid)
    (hempty : pairRows st pid uid = [])
    (hfresh : ∀ c ∈ st.contributors, c.id ≠ newId1) :
    pairRows (register now2 newId2 b2 uid (register now1 newId1 b1 uid st).1).1 pid uid =
      [{ id := newId1, pool_id := pid, user_id := uid,
         cpu_cores := some (b2.cpu_cores.getD 0), ram_gb := some (b2.ram_gb.getD 0),
         storage_gb := some (b2.storage_gb.getD 0), status := Status.online,
         last_seen := some now2 }] ∧
    ((∀ c ∈ st.contributors, c.pool_id = pid → c.status ≠ Status.online) →
      ∀ p ∈ (register now2 newId2 b2 uid (register now1 newId1 b1 uid st).1).1.pools,
        p.id = pid →
        p.total_cpu_cores = b2.cpu_cores.getD 0 ∧
        p.total_ram_gb = b2.ram_gb.getD 0 ∧
        p.total_storage_gb = b2.storage_gb.getD 0) := by
  have hempty' :
      st.contributors.filter (fun c => decide (c.pool_id = pid ∧ c.user_id = uid)) = [] :=
    hempty
  have hfc1 :
      st.contributors.find? (fun c => decide (c.pool_id = pid ∧ c.user_id = uid)) = none :=
    List.find?_eq_none.mpr (List.filter_eq_nil_iff.mp hempty')
  obtain ⟨pl1, hfp1⟩ := find?_pools_isSome st.pools pid p0 hp0 hpid
  have hreg1 := register_insert_eq now1 newId1 b1 uid st pid pl1 hb1 hfp1 hfc1
  have hst1c : (register now1 newId1 b1 uid st).1.contributors =
      st.contributors ++
        [{ id := newId1, pool_id := pid, user_id := uid,
           cpu_cores := some (b1.cpu_cores.getD 0), ram_gb := some (b1.ram_gb.getD 0),
           storage_gb := some (b1.storage_gb.getD 0), status := Status.online,
           last_seen := some now1 }] := by
    rw [hreg1]
    rfl
  have hst1p : ∃ q ∈ (register now1 newId1 b1 uid st).1.pools, q.id = pid := by
    rw [hreg1]
    obtain ⟨q, hq, hqid⟩ := mem_setPoolTotals_of_mem _ pid st.pools p0 hp0
    exact ⟨q, hq, hqid.trans hpid⟩
  obtain ⟨q1, hq1, hq1id⟩ := hst1p
  obtain ⟨pl2, hfp2⟩ :=
    find?_pools_isSome (register now1 newId1 b1 uid st).1.pools pid q1 hq1 hq1id
  have hfc2 : (register now1 newId1 b1 uid st).1.contributors.find?
      (fun c => decide (c.pool_id = pid ∧ c.user_id = uid)) =
      some { id := newId1, pool_id := pid, user_id := uid,
             cpu_cores := some (b1.cpu_cores.getD 0), ram_gb := some (b1.ram_gb.getD 0),
             storage_gb := some (b1.storage_gb.getD 0), status := Status.online,
             last_seen := some now1 } := by
    rw [hst1c, List.find?_append, hfc1]
    simp
  have hreg2 := register_update_eq now2 newId2 b2 uid (register now1 newId1 b1 uid st).1
    pid pl2 _ hb2 hfp2 hfc2
  have hmapg : ((register now1 newId1 b1 uid st).1.contributors.map fun c =>
      if c.id = newId1 then regOverwrite now2 b2 c else c) =
      st.contributors ++
        [{ id := newId1, pool_id := pid, user_id := uid,
           cpu_cores := some (b2.cpu_cores.getD 0), ram_gb := some (b2.ram_gb.getD 0),
           storage_gb := some (b2.storage_gb.getD 0), status := Status.online,
           last_seen := some now2 }] := by
    rw [hst1c, List.map_append]
    congr 1
    · refine (List.map_congr_left ?_).trans (List.map_id _)
      intro a ha
      simp [hfresh a ha]
    · simp [regOverwrite]
  have hst2c :
      (register now2 newId2 b2 uid (register now1 newId1 b1 uid st).1).1.contributors =
      st.contributors ++
        [{ id := newId1, pool_id := pid, user_id := uid,
           cpu_cores := some (b2.cpu_cores.getD 0), ram_gb := some (b2.ram_gb.getD 0),
           storage_gb := some (b2.storage_gb.getD 0), status := Status.online,
           last_seen := some now2 }] := by
    rw [hreg2]
    exact hmapg
  constructor
  · show (register now2 newId2 b2 uid
        (register now1 newId1 b1 uid st).1).1.contributors.filter
        (fun c => decide (c.pool_id = pid ∧ c.user_id = uid)) = _
    rw [hst2c, List.filter_append, hempty']
    simp
  · intro hoffline
    rw [hreg2]
    exact totals_of_single_online _ pid
      { id := newId1, pool_id := pid, user_id := uid,
        cpu_cores := some (b2.cpu_cores.getD 0), ram_gb := some (b2.ram_gb.getD 0),
        storage_gb := some (b2.storage_gb.getD 0), status := Status.online,
        last_seen := some now2 }
      st.contributors hmapg
      (fun c hc hcon => hoffline c hc hcon.1 hcon.2) ⟨rfl, rfl⟩

/-- Witness for C2 at concrete states: two registrations by user 5. -/
theorem c2_witness :
    pairRows (register 1 11 regBody2 5 (register 0 10 regBody 5 st0).1).1 1 5 =
      [{ id := 10, pool_id := 1, user_id := 5, cpu_cores := some 2, ram_gb := some 4,
         storage_gb := some 20, status := Status.online, last_seen := some 1 }] ∧
    ∀ p ∈ (register 1 11 regBody2 5 (register 0 10 regBody 5 st0).1).1.pools,
      p.id = 1 →
      p.total_cpu_cores = 2 ∧ p.total_ram_gb = 4 ∧ p.total_storage_gb = 20 := by
  have h := c2_register_twice 0 1 10 11 regBody regBody2 5 st0 1 pool1 (by decide) rfl
    rfl rfl (by decide) (by decide)
  exact ⟨h.1, h.2 (by decide)⟩

/-- Claim C6: the visibility predicate is reflexive for any user with at
least one pool relationship, and both directions hold between any two
owner-or-contributor members of the same pool. -/
theorem c6_share_pool_refl_symm (st : State) (p : Pool) (hp : p ∈ st.pools) :
    (∀ u, memberOf st u p → users_share_pool st u u = true) ∧
    (∀ a b, memberOf st a p → memberOf st b p →
      users_share_pool st a b = true ∧ users_share_pool st b a = true) :=
  ⟨fun u hu => share_of_memberOf st u u p hp hu hu,
   fun a b ha hb =>
     ⟨share_of_memberOf st a b p hp ha hb, share_of_memberOf st b a p hp hb ha⟩⟩

/-- Witness for C6 on a concrete state: owner 2 and contributor 3 of
pool 200. -/
theorem c6_witness :
    users_share_pool exSt7 3 3 = true ∧
    users_share_pool exSt7 2 3 = true ∧ users_share_pool exSt7 3 2 = true := by
  have hmem2 : memberOf exSt7 2
      { id := 200, owner_id := 2, invite_code := "z", total_cpu_cores := 0,
        total_ram_gb := 0, total_storage_gb := 0 } := by
    unfold memberOf; decide
  have hmem3 : memberOf exSt7 3
      { id := 200, owner_id := 2, invite_code := "z", total_cpu_cores := 0,
        total_ram_gb := 0, total_storage_gb := 0 } := by
    unfold memberOf; decide
  have h := c6_share_pool_refl_symm exSt7
    { id := 200, owner_id := 2, invite_code := "z", total_cpu_cores := 0,
      total_ram_gb := 0, total_storage_gb := 0 } (by decide)
  exact ⟨h.1 3 hmem3, (h.2 2 3 hmem2 hmem3).1, (h.2 2 3 hmem2 hmem3).2⟩

/-- Claim C7: owning a server assigned to a pool grants visibility into
every owner or contributor of that pool; and the grant is asymmetric —
in `exSt7` the server owner (user 1) sees pool contributor 3, while
user 3 does not see user 1. -/
theorem c7_server_transitivity_asymmetric :
    (∀ (st : State) (viewer t : Nat) (s : Server) (asg : Assignment) (p : Pool),
      s ∈ st.servers → s.owner_id = viewer → asg ∈ st.assignments →
      asg.server_id = s.id → p ∈ st.pools → p.id = asg.pool_id →
      (p.owner_id = t ∨ ∃ pc ∈ st.contributors, pc.pool_id = p.id ∧ pc.user_id = t) →
      users_share_pool st viewer t = true) ∧
    (users_share_pool exSt7 1 3 = true ∧ users_share_pool exSt7 3 1 = false) := by
  constructor
  · intro st viewer t s asg p hs hso hasg hsid hp hpid ht
    unfold users_share_pool
    rw [Bool.or_eq_true]
    right
    rw [List.any_eq_true]
    refine ⟨s, hs, ?_⟩
    rw [Bool.and_eq_true]
    refine ⟨by simpa using hso, ?_⟩
    rw [List.any_eq_true]
    refine ⟨asg, hasg, ?_⟩
    rw [Bool.and_eq_true]
    refine ⟨by simpa using hsid, ?_⟩
    rw [List.any_eq_true]
    refine ⟨p, hp, ?_⟩
    rw [Bool.and_eq_true]
    refine ⟨by simpa using hpid, ?_⟩
    rw [Bool.or_eq_true]
    rcases ht with h | ⟨pc, hpc, h1, h2⟩
    · left; simpa using h
    · right; rw [List.any_eq_true]; exact ⟨pc, hpc, by simp [h1, h2]⟩
  · exact ⟨by decide, by decide⟩

/-- Witness for C7's universal part at the concrete state `exSt7`. -/
theorem c7_witness : users_share_pool exSt7 1 3 = true :=
  c7_server_transitivity_asymmetric.1 exSt7 1 3 { id := 100, owner_id := 1 }
    { server_id := 100, pool_id := 200 }
    { id := 200, owner_id := 2, invite_code := "z", total_cpu_cores := 0,
      total_ram_gb := 0, total_storage_gb := 0 }
    (by decide) rfl (by decide) rfl (by decide) rfl
    (Or.inr ⟨{ id := 11, pool_id := 200, user_id := 3, cpu_cores := none, ram_gb := none,
               storage_gb := none, status := Status.offline, last_seen := none },
             by decide, rfl, rfl⟩)

/-- Claim C8: any non-preflight request whose Authorization header is
missing (or empty, which JavaScript treats as missing) or whose token the
verifier rejects is answered 401 with the state untouched — no route,
known or unknown, is ever dispatched. -/
theorem c8_unauthenticated_rejected (verify : String → Option Nat) (now newId : Nat)
    (req : Request) (st : State)
    (hm : req.method ≠ "OPTIONS")
    (hbad : req.authHeader = none ∨
      ∃ h, req.authHeader = some h ∧
        (h = "" ∨ verify (removeFirst bearerTag h) = none)) :
    (serve verify now newId req st).1 = st ∧
    (serve verify now newId req st).2.status = 401 := by
  rcases hbad with hnone | ⟨h, hsome, hrest⟩
  · rw [serve_none_eq verify now newId req st hm hnone]
    exact ⟨rfl, rfl⟩
  · rw [serve_some_eq verify now newId req st h hm hsome]
    by_cases hemp : h = ""
    · rw [if_pos hemp]
      exact ⟨rfl, rfl⟩
    · rw [if_neg hemp]
      rw [hrest.resolve_left hemp]
      exact ⟨rfl, rfl⟩

/-- Witness for C8: a headerless POST to the heartbeat route. -/
theorem c8_witness :
    (serve (fun _ => some 5) 0 0 reqNoAuth exSt5).1 = exSt5 ∧
    (serve (fun _ => some 5) 0 0 reqNoAuth exSt5).2.status = 401 :=
  c8_unauthenticated_rejected (fun _ => some 5) 0 0 reqNoAuth exSt5 (by decide)
    (Or.inl rfl)

/-- Claim C9: a non-empty Authorization header never takes the
missing-header branch; the token handed to the verifier is the header with
only the first occurrence of the substring matched by `bearerTag` removed,
after which the outcome rests solely with the verifier; and a header not
containing that substring (a bare token) is forwarded verbatim. -/
theorem c9_bearer_extraction (verify : String → Option Nat) (now newId : Nat)
    (req : Request) (st : State) (h : String)
    (hm : req.method ≠ "OPTIONS") (hh : req.authHeader = some h) (hne : h ≠ "") :
    (serve verify now newId req st).2 ≠ ⟨401, "Missing authorization header"⟩ ∧
    serve verify now newId req st =
      (match verify (removeFirst bearerTag h) with
        | none => (st, ⟨401, "Invalid or expired token"⟩)
        | some uid => dispatch now newId req uid st) ∧
    (hasSub bearerTag h = false → removeFirst bearerTag h = h) := by
  have heq : serve verify now newId req st =
      (match verify (removeFirst bearerTag h) with
        | none => (st, ⟨401, "Invalid or expired token"⟩)
        | some uid => dispatch now newId req uid st) := by
    rw [serve_some_eq verify now newId req st h hm hh, if_neg hne]
  refine ⟨?_, heq, fun hns => removeFirst_of_hasSub_false bearerTag h hns⟩
  rw [heq]
  cases hv : verify (removeFirst bearerTag h) with
  | none =>
    intro hcon
    have hmsg : "Invalid or expired token" = "Missing authorization header" :=
      congrArg Response.msg hcon
    exact absurd hmsg (by decide)
  | some uid =>
    intro hcon
    exact dispatch_status_ne_401 now newId req uid st (congrArg Response.status hcon)

/-- Witness for C9: a bare-token header is forwarded verbatim and accepted
when the verifier knows it. -/
theorem c9_witness :
    (serve (fun t => if t = "raw" then some 5 else none) 0 0
        { method := "POST", path := "/agent-api/pools", authHeader := some "raw",
          body := dcBody } exSt5).2 ≠ ⟨401, "Missing authorization header"⟩ ∧
    hasSub bearerTag "raw" = false ∧ removeFirst bearerTag "raw" = "raw" := by
  have h := c9_bearer_extraction (fun t => if t = "raw" then some 5 else none) 0 0
    { method := "POST", path := "/agent-api/pools", authHeader := some "raw",
      body := dcBody } exSt5 "raw" (by decide) rfl (by decide)
  exact ⟨h.1, by decide, h.2.2 (by decide)⟩

end HomeServerHost
